import Mathlib

set_option maxHeartbeats 1000000

/-!
Shallow embedding of the node-chunks repository.

Embedded modules (from src/):
* `Service` (src/unnamed/part_000, first module): endpoint registry base class.
* `ServerAppChunk` (src/unnamed/part_000, second module): composite component.
* `RendersResponses` (src/renders-responses.js, first module): rendering mixin.
* `JSONRenderer` (src/renders-responses.js, second module): concrete renderer.

JS values are modelled by the inductive `JSVal`; function values are bare
tags, since the behaviour of the closures the source itself builds is embedded
separately (trace models below).  The corelib-web utility library
(./libs/corelib-web/utils.js and base.js, required by the source via relative
paths but not present under src/) is modelled from the spec where its
behaviour matters; each such definition carries a doc comment saying so.
-/

/-- A JavaScript value, as far as the embedded code can observe it.
Function values are bare numeric tags: the source only stores them, tests them
with the utility predicate for functions, and hands them around. -/
inductive JSVal where
  | undef : JSVal
  | null : JSVal
  | boolV : Bool → JSVal
  | numV : Int → JSVal
  | strV : String → JSVal
  | arrV : List JSVal → JSVal
  | objV : List (String × JSVal) → JSVal
  | funcV : Nat → JSVal

/-- Modelled from the spec: corelib-web `_.get(obj, key)` (utils.js, not under
src/) returns the value stored under `key` when `obj` is an object that holds
it, and undefined otherwise.  The optional third argument of the source is a
log label and is dropped here. -/
def jget : JSVal → String → JSVal
  | JSVal.objV fields, k =>
    match fields.find? (fun p => p.1 == k) with
    | some p => p.2
    | none => JSVal.undef
  | _, _ => JSVal.undef

/-- Modelled from the spec: corelib-web `_.obj(v)` is true exactly for plain
objects; the spec treats arrays as non-map values (section 4.3), so they are
not objects here. -/
def isObj : JSVal → Bool
  | JSVal.objV _ => true
  | _ => false

/-- Modelled from the spec: corelib-web `_.func(v)` is true exactly for
function values. -/
def isFunc : JSVal → Bool
  | JSVal.funcV _ => true
  | _ => false

/-- Modelled from the spec: corelib-web `_.string(v)` is true exactly for
string values. -/
def isStr : JSVal → Bool
  | JSVal.strV _ => true
  | _ => false

/-- Modelled from the spec: corelib-web `_.number(v)` is true exactly for
number values. -/
def isNum : JSVal → Bool
  | JSVal.numV _ => true
  | _ => false

/-- Modelled from the spec: corelib-web `_.def(v)` is true for every value
that is neither undefined nor null.  The source relies on this reading: a
failed setup returns null and the caller counts successes with `_.def`. -/
def jdef : JSVal → Bool
  | JSVal.undef => false
  | JSVal.null => false
  | _ => true

/-- JavaScript truthiness, used by the source for `x || y` defaults:
undefined, null, false, 0 and the empty string are falsy. -/
def truthy : JSVal → Bool
  | JSVal.undef => false
  | JSVal.null => false
  | JSVal.boolV b => b
  | JSVal.numV n => n != 0
  | JSVal.strV s => s != ""
  | _ => true

/-- Modelled from the spec: string coercion applied where the source hands a
value to a string position (a property name or a path segment).  Structured
values do not occur there in the spec scenarios and map to the empty
string. -/
def jsStr : JSVal → String
  | JSVal.strV s => s
  | JSVal.numV n => toString n
  | JSVal.boolV b => cond b ("true") ("false")
  | JSVal.null => "null"
  | JSVal.undef => "undefined"
  | _ => ""

/-- Modelled from the spec: corelib-web `_.hasMethod(obj, name)` is true when
`obj` exposes a function under `name`; the source uses it to verify that the
server object exposes a method named after the HTTP verb. -/
def hasMethod (obj : JSVal) (name : String) : Bool :=
  isFunc (jget obj name)

/-- The opening brace character, written via its code point to keep brace
characters out of literals. -/
def lbrace : Char := Char.ofNat 123

/-- The closing brace character, written via its code point. -/
def rbrace : Char := Char.ofNat 125

/-- Modelled from the spec: the corelib-web `.fmt` template helper replaces
every occurrence of the first placeholder with `a` and of the second with
`b`.  Character-list scanner so that it evaluates by plain reduction. -/
def substPlaceholders (a b : String) : List Char → List Char
  | [] => []
  | [c] => [c]
  | [c, d] => [c, d]
  | c :: d :: e :: rest =>
    if c = lbrace ∧ e = rbrace ∧ d = '0' then a.toList ++ substPlaceholders a b rest
    else if c = lbrace ∧ e = rbrace ∧ d = '1' then b.toList ++ substPlaceholders a b rest
    else c :: substPlaceholders a b (d :: e :: rest)

/-- Modelled from the spec: `template.fmt(a, b)` from corelib-web. -/
def fmt2 (s a b : String) : String :=
  String.mk (substPlaceholders a b s.toList)

/-- Remove every leading path separator of a string. -/
def dropLeadingSlashes (s : String) : String :=
  String.mk (s.toList.dropWhile (fun c => c == '/'))

/-- Remove every trailing path separator of a string. -/
def dropTrailingSlashes (s : String) : String :=
  String.mk ((s.toList.reverse.dropWhile (fun c => c == '/')).reverse)

/-- Modelled from the spec: corelib-web `_.joinPaths([root, sub])` joins the
two segments with a single separator; the spec example joins "/api/" and
"/users/:id" into "/api/users/:id". -/
def joinPaths (root sub : String) : String :=
  dropTrailingSlashes root ++ "/" ++ dropLeadingSlashes sub

/-- State of a `Service` instance (src/unnamed/part_000, first module): the
instance name from NamedBase, the stored endpoint table and endpoint method
map, and the validity flag. -/
structure ServiceState where
  iname : String
  endpointTable : JSVal
  endpointMethodMap : JSVal
  valid : Bool

/-- `Service.getEndpointNames` (part_000 lines 80-91): null when the stored
endpoint table is not an object, otherwise its own property names in
insertion order. -/
def Service.getEndpointNames (s : ServiceState) : Option (List String) :=
  match s.endpointTable with
  | JSVal.objV fields => some (fields.map Prod.fst)
  | _ => none

/-- `Service.getEndpointDefFor` (part_000 lines 93-98). -/
def Service.getEndpointDefFor (s : ServiceState) (endpointName : String) : JSVal :=
  jget s.endpointTable endpointName

/-- `Service.getMethodForEndpoint` (part_000 lines 126-131). -/
def Service.getMethodForEndpoint (s : ServiceState) (endpointName : String) : JSVal :=
  jget s.endpointMethodMap endpointName

/-- `Service._endpointMethodMapValid` (part_000 lines 156-178): false when no
endpoint-name list is available; otherwise the loop clears the flag whenever
some declared name is not mapped to a function, so the result is the
conjunction over all names. -/
def Service.endpointMethodMapValid (s : ServiceState) : Bool :=
  match Service.getEndpointNames s with
  | none => false
  | some endpointNames =>
    endpointNames.all (fun name => isFunc (Service.getMethodForEndpoint s name))

/-- `Service` constructor (part_000 lines 65-78).  The overridable
`_mapEndpointsToMethods` hook is a parameter: the base implementation returns
null, concrete services return an object of functions. -/
def Service.construct (serviceName : String) (config methodMapResult : JSVal) : ServiceState :=
  let s : ServiceState :=
    { iname := serviceName
      endpointTable := jget config ("endpointTable")
      endpointMethodMap := methodMapResult
      valid := true }
  if Service.endpointMethodMapValid s then s else { s with valid := false }

/-- A route registered on the HTTP server: the verb whose server method was
called, the URL path passed to it, and the handler passed to it. -/
structure Route (H : Type) where
  verb : String
  path : String
  handler : H
deriving DecidableEq

/-- Modelled from the spec: the JS `toLowerCase()` call on the verb string,
as per-character lowercasing; written over the character list so that it
evaluates by plain reduction. -/
def lowerStr (s : String) : String :=
  String.mk (s.toList.map Char.toLower)

/-- Verb resolution of `RendersResponses._llRegisterEndpointHandler`
(renders-responses.js lines 229-232): take the HTTPMethod field with a falsy
default of "get", then lowercase it when it is a string. -/
def resolvedHTTPMethod (endpointDef : JSVal) : JSVal :=
  let m0 := jget endpointDef ("HTTPMethod")
  let m1 := if truthy m0 then m0 else JSVal.strV "get"
  match m1 with
  | JSVal.strV s => JSVal.strV (lowerStr s)
  | v => v

/-- `RendersResponses._llRegisterEndpointHandler` (renders-responses.js lines
225-244): resolve the verb and the joined URL path; when the server exposes a
method named after the verb, call it with the path and the handler (recorded
as the returned `Route`) and return the path, otherwise register nothing and
return null (`none`). -/
def llRegisterEndpointHandler {H : Type} (server endpointDef servicePathRoot : JSVal)
    (endpointHandlerFunc : H) : Option (Route H) :=
  let m := resolvedHTTPMethod endpointDef
  let urlPath := joinPaths (jsStr servicePathRoot) (jsStr (jget endpointDef ("URLSubpath")))
  if hasMethod server (jsStr m) then some { verb := jsStr m, path := urlPath, handler := endpointHandlerFunc }
  else none

/-- The validated handler closure built by
`ServerAppChunk._llCreateValidatedHandlerFunc` (part_000 lines 416-430),
identified by the endpoint name it was built for and the raw handler value it
wraps.  The wrapper itself is always a function. -/
structure ValidatedHandler where
  endpointName : String
  rawHandler : JSVal

/-- `ServerAppChunk._registerEndpointHandlers` (part_000 lines 345-414): per
endpoint, skip it when its definition is not an object or its handler is not
a function, otherwise wrap the handler and register it; the check on the
wrapped handler never fails because the wrapper is always a function.  The
overall flag starts true for a non-empty list and is cleared only when not a
single endpoint registered. -/
def ServerAppChunk.registerEndpointHandlers (s : ServiceState) (server urlPathRoot : JSVal) :
    Bool × List (Route ValidatedHandler) :=
  match Service.getEndpointNames s with
  | none => (false, [])
  | some endpointNames =>
    if endpointNames.isEmpty then (true, [])
    else
      let routes := endpointNames.filterMap (fun name =>
        let endpointDef := Service.getEndpointDefFor s name
        if !(isObj endpointDef) then none
        else
          let endpointHandler := Service.getMethodForEndpoint s name
          if !(isFunc endpointHandler) then none
          else
            llRegisterEndpointHandler server endpointDef urlPathRoot
              { endpointName := name, rawHandler := endpointHandler })
      (!routes.isEmpty, routes)

/-- State of a `ServerAppChunk` after construction: the Service part, the
stored path root and server, the render-method map, the routes its
constructor registered on the server, and the validity flag. -/
structure ChunkState where
  base : ServiceState
  urlPathRoot : JSVal
  server : JSVal
  endpointRenderMethodMap : JSVal
  routes : List (Route ValidatedHandler)
  valid : Bool

/-- `ServerAppChunk` constructor (part_000 lines 270-299).  After the super
call it assigns true to the validity flag, overwriting whatever the Service
constructor computed; it then clears the flag only when the server is not an
object, and in that case returns early: no handler is registered and the
render-method map is left unassigned (undefined).  Otherwise it runs the
self-registration, clears the flag when that fails, and stores the result of
the overridable `_mapEndpointsToRenderMethods` hook (a parameter here; the
base implementation returns the empty object). -/
def ServerAppChunk.construct (chunkName : String)
    (config methodMapResult renderMethodMapResult : JSVal) : ChunkState :=
  let base := Service.construct chunkName config methodMapResult
  let urlPathRoot := if truthy (jget config ("URLPathRoot")) then jget config ("URLPathRoot") else JSVal.strV "/"
  let server := jget config ("server")
  if !(isObj server) then
    { base := base, urlPathRoot := urlPathRoot, server := server,
      endpointRenderMethodMap := JSVal.undef, routes := [], valid := false }
  else
    let reg := ServerAppChunk.registerEndpointHandlers base server urlPathRoot
    { base := base, urlPathRoot := urlPathRoot, server := server,
      endpointRenderMethodMap := renderMethodMapResult, routes := reg.2, valid := reg.1 }

/-- The capabilities and results the `RendersResponses` mixin consumes from
the `service` argument (renders-responses.js).  The three `has` flags state
whether the service exposes the methods of `REQUIRED_SERVICE_IF`;
`endpointNames` is the result of `getEndpointNames()` (`none` when it is not
an array); the two lookup functions give the results of `getEndpointDefFor`
and `getMethodForEndpoint`. -/
structure RRService where
  hasGetIName : Bool
  hasGetEndpointNames : Bool
  hasGetEndpointDefFor : Bool
  iname : String
  endpointNames : Option (List String)
  endpointDefFor : String → JSVal
  methodForEndpoint : String → JSVal

/-- The mixin user itself (`this` in renders-responses.js): the results of
its overridable hooks `getRenderMethodForEndpoint` and `getHTTPServer`. -/
structure RRSelf where
  iname : String
  renderMethodForEndpoint : String → JSVal
  server : JSVal

/-- Modelled from the spec: corelib-web `_.interfaceAdheres(service, IF)`
checks that the service exposes every method listed in the interface
definition; here the three methods of `REQUIRED_SERVICE_IF`
(renders-responses.js lines 30-34). -/
def interfaceAdheres (service : RRService) : Bool :=
  service.hasGetIName && service.hasGetEndpointNames && service.hasGetEndpointDefFor

/-- The composite handler closure built by
`RendersResponses._llCreateEndpointHandlerFunc`, identified by the name of
the service it processes with and the endpoint name. -/
structure HandlerDesc where
  serviceName : String
  endpointName : String
deriving DecidableEq

/-- `RendersResponses._llCreateEndpointHandlerFunc` (renders-responses.js
lines 164-223): null when the service has no processing function for the
endpoint, null when the mixin user has no render function for it, otherwise
the composite handler closure. -/
def llCreateEndpointHandlerFunc (self : RRSelf) (service : RRService)
    (endpointName : String) : Option HandlerDesc :=
  if !(isFunc (service.methodForEndpoint endpointName)) then none
  else if !(isFunc (self.renderMethodForEndpoint endpointName)) then none
  else some { serviceName := service.iname, endpointName := endpointName }

/-- `RendersResponses._llSetupRenderingFor` (renders-responses.js lines
136-162): null when the handler could not be created or the endpoint
definition is not an object, otherwise the result of registering the
handler. -/
def llSetupRenderingFor (self : RRSelf) (service : RRService) (endpointName : String)
    (servicePathRoot : JSVal) : Option (Route HandlerDesc) :=
  match llCreateEndpointHandlerFunc self service endpointName with
  | none => none
  | some h =>
    let endpointDef := service.endpointDefFor endpointName
    if !(isObj endpointDef) then none
    else llRegisterEndpointHandler self.server endpointDef servicePathRoot h

/-- Endpoint selection of `renderResponsesFor` (renders-responses.js line
79): the `endpoints` argument when it is an array, otherwise the names the
service reports. -/
def resolvedEndpointNames (service : RRService) (endpoints : Option (List String)) :
    Option (List String) :=
  match endpoints with
  | some l => some l
  | none => service.endpointNames

/-- `RendersResponses.renderResponsesFor` (renders-responses.js lines
64-127).  Returns the boolean result together with the routes registered on
the server, in order.  False with no registration when the capability check
fails or no valid endpoint-name list resolves; true with no registration on
an empty selection; otherwise each selected endpoint is set up
independently and the result is true exactly when at least one setup
succeeded. -/
def renderResponsesFor (self : RRSelf) (service : RRService)
    (servicePathRoot : JSVal) (endpoints : Option (List String)) :
    Bool × List (Route HandlerDesc) :=
  let root := if truthy servicePathRoot then servicePathRoot else JSVal.strV "/"
  if !(interfaceAdheres service) then (false, [])
  else
    match resolvedEndpointNames service endpoints with
    | none => (false, [])
    | some endpointNames =>
      if endpointNames.isEmpty then (true, [])
      else
        let routes := endpointNames.filterMap
          (fun name => llSetupRenderingFor self service name root)
        (!routes.isEmpty, routes)

/-- The error object handed to the next-handler: message and code fields. -/
structure ErrObj where
  message : String
  code : String
deriving DecidableEq

/-- Observable calls the composite handler closure makes on one request. -/
inductive HEvent where
  | nextErrCall : ErrObj → HEvent
  | processCall : HEvent
  | renderCall : JSVal → JSVal → JSVal → HEvent

/-- Request-time behaviour of the composite handler closure
(renders-responses.js lines 186-220) as the ordered list of calls it makes.
`serviceIsValid` is `some b` when `service.isValid` is a function returning
`b` and `none` when the service has no isValid function (the source then
defaults to valid); `rendererIsValid` plays the same role for the mixin
user; `processOutcome` is the `(data, err)` pair the processing method
eventually passes to its ready callback, `none` when the callback never
fires.  An invalid service gets the next-handler error and the processing
method is not called; otherwise the processing method is called
(`processCall`) and, once its callback fires, an invalid renderer gets the
next-handler error and otherwise the render method is called with the data,
the error and no sixth status argument (undefined). -/
def compositeHandler (serviceName rendererName endpointName : String)
    (serviceIsValid rendererIsValid : Option Bool)
    (processOutcome : Option (JSVal × JSVal)) : List HEvent :=
  let serviceValid := serviceIsValid.getD true
  if !serviceValid then
    [HEvent.nextErrCall
      { message := fmt2 ("Service {0} invalid, unable to handle request to endpoint {1}") serviceName endpointName
        code := "ERR_SERVICE_INVALID" }]
  else
    HEvent.processCall ::
      (match processOutcome with
       | none => []
       | some (data, err) =>
         let rendererValid := rendererIsValid.getD true
         if !rendererValid then
           [HEvent.nextErrCall
             { message := fmt2 ("Renderer {0} invalid, unable to handle request to endpoint {1}") rendererName endpointName
               code := "ERR_RENDERER_INVALID" }]
         else
           [HEvent.renderCall data err JSVal.undef])

/-- Observable calls the validated handler wrapper of a `ServerAppChunk`
makes on one request. -/
inductive VHEvent where
  | nextErrCall : ErrObj → VHEvent
  | rawHandlerCall : VHEvent
deriving DecidableEq

/-- Request-time behaviour of the wrapper built by
`ServerAppChunk._llCreateValidatedHandlerFunc` (part_000 lines 416-430) as
the ordered list of calls it makes.  When the chunk is invalid it calls the
next-handler with the error object; the branch has no return, so the raw
handler is invoked afterwards in every case.  The source message template
uses the first placeholder twice, so the endpoint name is substituted twice
and the chunk name never appears. -/
def validatedHandlerEvents (chunkName endpointName : String) (chunkValid : Bool) :
    List VHEvent :=
  (if !chunkValid then
    [VHEvent.nextErrCall
      { message := fmt2 ("Endpoint {0} : Server app chunk {0} is not valid, unable to handle request") endpointName chunkName
        code := "ERR_SERVER_APP_CHUNK_INVALID" }]
   else []) ++ [VHEvent.rawHandlerCall]

/-- Observable calls `JSONRenderer._renderJSON` makes on the next-handler and
the response channel. -/
inductive REvent where
  | nextCall : JSVal → REvent
  | statusCall : Int → REvent
  | setCall : JSVal → REvent
  | jsonCall : JSVal → REvent

/-- `JSONRenderer._renderJSON` (renders-responses.js lines 310-331) as the
ordered list of calls it makes.  A defined err is forwarded unchanged to the
next-handler and nothing else happens; otherwise a numeric status is applied
first, then configured header objects, then the data (wrapped as an object
when it is not one) is written with json. -/
def renderJSON (responseHeaders data err status : JSVal) : List REvent :=
  if jdef err then [REvent.nextCall err]
  else
    (match status with
     | JSVal.numV n => [REvent.statusCall n]
     | _ => [])
    ++ (if isObj responseHeaders then [REvent.setCall responseHeaders] else [])
    ++ [REvent.jsonCall (if isObj data then data else JSVal.objV [("data", data)])]

/-- A ServerAppChunk configuration with two declared endpoints and a valid
server exposing only a get method. -/
def exampleChunkConfig : JSVal :=
  JSVal.objV
    [("endpointTable", JSVal.objV
        [("e1", JSVal.objV [("URLSubpath", JSVal.strV "/a")]),
         ("e2", JSVal.objV [("URLSubpath", JSVal.strV "/b")])]),
     ("server", JSVal.objV [("get", JSVal.funcV 0)])]

/-- A method map covering only the first of the two endpoints of
`exampleChunkConfig`: the second declared endpoint is unmapped. -/
def exampleChunkMethodMap : JSVal :=
  JSVal.objV [("e1", JSVal.funcV 1)]

/-- An endpoint definition whose HTTPMethod field is the empty string. -/
def exampleEmptyVerbDef : JSVal :=
  JSVal.objV [("HTTPMethod", JSVal.strV ""), ("URLSubpath", JSVal.strV "/x")]

/-- A server object exposing only a get method. -/
def exampleGetOnlyServer : JSVal :=
  JSVal.objV [("get", JSVal.funcV 0)]

/-- A service with three endpoints of which the second has no processing
function: the mixed-outcome setting of the spec. -/
def exampleRRService : RRService :=
  { hasGetIName := true
    hasGetEndpointNames := true
    hasGetEndpointDefFor := true
    iname := "svc"
    endpointNames := some ["a", "b", "c"]
    endpointDefFor := fun name => JSVal.objV [("URLSubpath", JSVal.strV ("/" ++ name))]
    methodForEndpoint := fun name => if name = "b" then JSVal.undef else JSVal.funcV 2 }

/-- A mixin user with a render method for every endpoint and a server
exposing only a get method. -/
def exampleRRSelf : RRSelf :=
  { iname := "rnd"
    renderMethodForEndpoint := fun _ => JSVal.funcV 3
    server := exampleGetOnlyServer }

/-- A service value missing one of the three required interface methods. -/
def exampleBadService : RRService :=
  { exampleRRService with hasGetIName := false }

/-- The constructor does not change the stored endpoint table. -/
theorem Service.construct_endpointTable (serviceName : String) (config methodMapResult : JSVal) :
    (Service.construct serviceName config methodMapResult).endpointTable =
      jget config ("endpointTable") := by
  unfold Service.construct
  dsimp only
  split <;> rfl

/-- The constructor stores the mapping-hook result unchanged. -/
theorem Service.construct_endpointMethodMap (serviceName : String) (config methodMapResult : JSVal) :
    (Service.construct serviceName config methodMapResult).endpointMethodMap = methodMapResult := by
  unfold Service.construct
  dsimp only
  split <;> rfl

/-- The validity check only reads the endpoint table and the method map, so
it gives the same answer on any two states sharing those fields. -/
theorem Service.endpointMethodMapValid_congr (s t : ServiceState)
    (htab : s.endpointTable = t.endpointTable)
    (hmap : s.endpointMethodMap = t.endpointMethodMap) :
    Service.endpointMethodMapValid s = Service.endpointMethodMapValid t := by
  unfold Service.endpointMethodMapValid Service.getEndpointNames Service.getMethodForEndpoint
  rw [htab, hmap]

/-- The validity flag right after construction equals the method-map check
evaluated on the constructed state. -/
theorem Service.construct_valid (serviceName : String) (config methodMapResult : JSVal) :
    (Service.construct serviceName config methodMapResult).valid =
      Service.endpointMethodMapValid (Service.construct serviceName config methodMapResult) := by
  conv_rhs => rw [Service.endpointMethodMapValid_congr
    (Service.construct serviceName config methodMapResult)
    { iname := serviceName, endpointTable := jget config ("endpointTable"),
      endpointMethodMap := methodMapResult, valid := true }
    (Service.construct_endpointTable serviceName config methodMapResult)
    (Service.construct_endpointMethodMap serviceName config methodMapResult)]
  unfold Service.construct
  dsimp only
  split <;> simp_all

/-- The method-map check is false exactly when no name list is available or
some declared name is unmapped. -/
theorem Service.endpointMethodMapValid_eq_false_iff (s : ServiceState) :
    Service.endpointMethodMapValid s = false ↔
      (Service.getEndpointNames s = none ∨
       ∃ names endpointName, Service.getEndpointNames s = some names ∧
         endpointName ∈ names ∧
         isFunc (Service.getMethodForEndpoint s endpointName) = false) := by
  unfold Service.endpointMethodMapValid
  cases h : Service.getEndpointNames s with
  | none => simp
  | some names =>
    simp only [h, Option.some.injEq, reduceCtorEq, false_or]
    rw [List.all_eq_false]
    constructor
    · rintro ⟨x, hx, hpx⟩
      exact ⟨names, x, rfl, hx, by simpa using hpx⟩
    · rintro ⟨names2, x, heq, hx, hpx⟩
      cases heq
      exact ⟨x, hx, by simp [hpx]⟩

/-- Claim C7: immediately after constructing a Service, the validity flag is
false exactly when the endpoint table yields no valid list of names or some
declared endpoint name has no function entry in the endpoint method map; the
construction is a total function, so the object always exists. -/
theorem service_construct_validity (serviceName : String) (config methodMapResult : JSVal) :
    (Service.construct serviceName config methodMapResult).valid = false ↔
      (Service.getEndpointNames (Service.construct serviceName config methodMapResult) = none ∨
       ∃ names endpointName,
         Service.getEndpointNames (Service.construct serviceName config methodMapResult) = some names ∧
         endpointName ∈ names ∧
         isFunc (jget methodMapResult endpointName) = false) := by
  rw [Service.construct_valid]
  rw [Service.endpointMethodMapValid_eq_false_iff]
  unfold Service.getMethodForEndpoint
  rw [Service.construct_endpointMethodMap]

/-- Claim C2: when the chunk is invalid at request time, the validated
handler wrapper calls the next-handler with the invalid-chunk error object
and then still falls through and invokes the underlying raw handler, both on
the same request. -/
theorem validatedHandler_invalid_signals_and_falls_through
    (chunkName endpointName : String) (chunkValid : Bool) (h : chunkValid = false) :
    validatedHandlerEvents chunkName endpointName chunkValid =
      [VHEvent.nextErrCall
        { message := fmt2 ("Endpoint {0} : Server app chunk {0} is not valid, unable to handle request") endpointName chunkName
          code := "ERR_SERVER_APP_CHUNK_INVALID" },
       VHEvent.rawHandlerCall] := by
  subst h
  rfl

/-- Witness for claim C2 at a concrete invalid chunk. -/
theorem validatedHandler_invalid_signals_and_falls_through_witness :
    validatedHandlerEvents ("chunk") ("ep") false =
      [VHEvent.nextErrCall
        { message := fmt2 ("Endpoint {0} : Server app chunk {0} is not valid, unable to handle request") ("ep") ("chunk")
          code := "ERR_SERVER_APP_CHUNK_INVALID" },
       VHEvent.rawHandlerCall] :=
  validatedHandler_invalid_signals_and_falls_through ("chunk") ("ep") false rfl

/-- Claim C4: the composite handler signals the service-invalid error and
does not invoke the processing method when the service exposes isValid and
it returns false; otherwise the processing method runs; and when its
completion callback fires while the renderer is invalid, the handler signals
the renderer-invalid error and does not invoke the render method. -/
theorem compositeHandler_validity_gates (serviceName rendererName endpointName : String)
    (serviceIsValid rendererIsValid : Option Bool) (processOutcome : Option (JSVal × JSVal))
    (data err : JSVal) :
    (serviceIsValid = some false →
      compositeHandler serviceName rendererName endpointName serviceIsValid rendererIsValid processOutcome =
        [HEvent.nextErrCall
          { message := fmt2 ("Service {0} invalid, unable to handle request to endpoint {1}") serviceName endpointName
            code := "ERR_SERVICE_INVALID" }] ∧
      HEvent.processCall ∉
        compositeHandler serviceName rendererName endpointName serviceIsValid rendererIsValid processOutcome) ∧
    (serviceIsValid ≠ some false →
      HEvent.processCall ∈
        compositeHandler serviceName rendererName endpointName serviceIsValid rendererIsValid processOutcome) ∧
    (serviceIsValid ≠ some false → rendererIsValid = some false →
      compositeHandler serviceName rendererName endpointName serviceIsValid rendererIsValid (some (data, err)) =
        [HEvent.processCall,
         HEvent.nextErrCall
          { message := fmt2 ("Renderer {0} invalid, unable to handle request to endpoint {1}") rendererName endpointName
            code := "ERR_RENDERER_INVALID" }] ∧
      ∀ d2 e2 s2, HEvent.renderCall d2 e2 s2 ∉
        compositeHandler serviceName rendererName endpointName serviceIsValid rendererIsValid (some (data, err))) := by
  have hvalid : serviceIsValid ≠ some false → serviceIsValid.getD true = true := by
    rcases serviceIsValid with _ | b
    · intro _; rfl
    · intro hb
      cases b
      · exact absurd rfl hb
      · rfl
  refine ⟨?_, ?_, ?_⟩
  · intro h
    subst h
    refine ⟨rfl, ?_⟩
    simp [compositeHandler, Option.getD]
  · intro h
    unfold compositeHandler
    rw [hvalid h]
    simp
  · intro h hr
    subst hr
    unfold compositeHandler
    rw [hvalid h]
    refine ⟨rfl, ?_⟩
    intro d2 e2 s2
    simp [Option.getD]

/-- Witness for claim C4: an invalid service yields only the next-handler
error; a valid service with an invalid renderer runs processing and then
yields only the next-handler error. -/
theorem compositeHandler_validity_gates_witness :
    compositeHandler ("svc") ("rnd") ("ep") (some false) none none =
      [HEvent.nextErrCall
        { message := fmt2 ("Service {0} invalid, unable to handle request to endpoint {1}") ("svc") ("ep")
          code := "ERR_SERVICE_INVALID" }] ∧
    HEvent.processCall ∈
      compositeHandler ("svc") ("rnd") ("ep") none (some false) (some (JSVal.numV 1, JSVal.undef)) ∧
    compositeHandler ("svc") ("rnd") ("ep") none (some false) (some (JSVal.numV 1, JSVal.undef)) =
      [HEvent.processCall,
       HEvent.nextErrCall
        { message := fmt2 ("Renderer {0} invalid, unable to handle request to endpoint {1}") ("rnd") ("ep")
          code := "ERR_RENDERER_INVALID" }] :=
  ⟨((compositeHandler_validity_gates ("svc") ("rnd") ("ep") (some false) none none (JSVal.numV 1) JSVal.undef).1 rfl).1,
   (compositeHandler_validity_gates ("svc") ("rnd") ("ep") none (some false) (some (JSVal.numV 1, JSVal.undef)) (JSVal.numV 1) JSVal.undef).2.1 (by simp),
   ((compositeHandler_validity_gates ("svc") ("rnd") ("ep") none (some false) (some (JSVal.numV 1, JSVal.undef)) (JSVal.numV 1) JSVal.undef).2.2 (by simp) rfl).1⟩

/-- Claim C10: a render call made by the composite handler always carries an
undefined sixth status argument, and the JSON render method called with an
undefined status never calls status on the response channel. -/
theorem compositeHandler_render_no_status (serviceName rendererName endpointName : String)
    (serviceIsValid rendererIsValid : Option Bool) (processOutcome : Option (JSVal × JSVal))
    (data err statusArg responseHeaders : JSVal) (n : Int) :
    (HEvent.renderCall data err statusArg ∈
        compositeHandler serviceName rendererName endpointName serviceIsValid rendererIsValid processOutcome →
      statusArg = JSVal.undef) ∧
    REvent.statusCall n ∉ renderJSON responseHeaders data err JSVal.undef := by
  constructor
  · intro hmem
    unfold compositeHandler at hmem
    dsimp only at hmem
    split at hmem
    · simp at hmem
    · rcases processOutcome with _ | ⟨d, e⟩
      · simp at hmem
      · dsimp only at hmem
        split at hmem
        · simp at hmem
        · simp at hmem
          exact hmem.2.2
  · by_cases hj : jdef err = true
    · simp [renderJSON, hj]
    · by_cases ho : isObj responseHeaders = true
      · simp [renderJSON, hj, ho]
      · simp [renderJSON, hj, ho]

/-- Witness for claim C10 at a concrete valid run. -/
theorem compositeHandler_render_no_status_witness :
    ((JSVal.undef = JSVal.undef) ∧
      REvent.statusCall 5 ∉ renderJSON JSVal.undef (JSVal.numV 1) JSVal.undef JSVal.undef) :=
  ⟨(compositeHandler_render_no_status ("svc") ("rnd") ("ep") none none
      (some (JSVal.numV 1, JSVal.undef)) (JSVal.numV 1) JSVal.undef JSVal.undef JSVal.undef 5).1
      (by simp [compositeHandler, Option.getD]),
   (compositeHandler_render_no_status ("svc") ("rnd") ("ep") none none
      (some (JSVal.numV 1, JSVal.undef)) (JSVal.numV 1) JSVal.undef JSVal.undef JSVal.undef 5).2⟩

/-- Claim C6: with a defined err the JSON render method forwards err
unchanged to the next-handler and touches nothing else; with an undefined
err it never calls the next-handler, applies a numeric status first, applies
configured header objects, and finishes by writing the possibly wrapped data
with json; in particular data 5 with status 201 yields status(201) then
json of the wrapped object. -/
theorem renderJSON_contract (responseHeaders data err status : JSVal) (n : Int) :
    (jdef err = true → renderJSON responseHeaders data err status = [REvent.nextCall err]) ∧
    (err = JSVal.undef →
      (∀ e2, REvent.nextCall e2 ∉ renderJSON responseHeaders data err status) ∧
      (status = JSVal.numV n →
        (renderJSON responseHeaders data err status).head? = some (REvent.statusCall n)) ∧
      (isObj responseHeaders = true →
        REvent.setCall responseHeaders ∈ renderJSON responseHeaders data err status) ∧
      (renderJSON responseHeaders data err status).getLast? =
        some (REvent.jsonCall (if isObj data = true then data else JSVal.objV [("data", data)]))) ∧
    renderJSON JSVal.undef (JSVal.numV 5) JSVal.undef (JSVal.numV 201) =
      [REvent.statusCall 201, REvent.jsonCall (JSVal.objV [("data", JSVal.numV 5)])] := by
  refine ⟨?_, ?_, rfl⟩
  · intro h
    simp [renderJSON, h]
  · intro h
    subst h
    refine ⟨?_, ?_, ?_, ?_⟩
    · intro e2
      cases status <;> by_cases ho : isObj responseHeaders = true <;>
        simp [renderJSON, jdef, ho]
    · intro hs
      subst hs
      simp [renderJSON, jdef]
    · intro ho
      cases status <;> simp [renderJSON, jdef, ho]
    · cases status <;> by_cases ho : isObj responseHeaders = true <;>
        simp [renderJSON, jdef, ho]

/-- Witness for claim C6: a defined err is forwarded to the next-handler
only, and the concrete data 5 with status 201 case. -/
theorem renderJSON_contract_witness :
    renderJSON JSVal.undef (JSVal.strV "x") (JSVal.numV 7) JSVal.undef =
      [REvent.nextCall (JSVal.numV 7)] ∧
    renderJSON JSVal.undef (JSVal.numV 5) JSVal.undef (JSVal.numV 201) =
      [REvent.statusCall 201, REvent.jsonCall (JSVal.objV [("data", JSVal.numV 5)])] :=
  ⟨(renderJSON_contract JSVal.undef (JSVal.strV "x") (JSVal.numV 7) JSVal.undef 0).1 rfl,
   (renderJSON_contract JSVal.undef (JSVal.numV 5) JSVal.undef (JSVal.numV 201) 0).2.2⟩

/-- Claim C3, amended: every error object this system itself constructs and
passes to the next-handler carries a code field equal to one of
ERR_SERVICE_INVALID, ERR_RENDERER_INVALID, ERR_SERVER_APP_CHUNK_INVALID; the
composite handler uses ERR_SERVICE_INVALID for an invalid service and
ERR_RENDERER_INVALID for an invalid renderer, and the ServerAppChunk
validity wrapper uses ERR_SERVER_APP_CHUNK_INVALID. -/
theorem nextError_codes (serviceName rendererName endpointName chunkName endpointName2 : String)
    (serviceIsValid rendererIsValid : Option Bool) (processOutcome : Option (JSVal × JSVal))
    (chunkValid : Bool) (e e2 : ErrObj)
    (h1 : HEvent.nextErrCall e ∈
      compositeHandler serviceName rendererName endpointName serviceIsValid rendererIsValid processOutcome)
    (h2 : VHEvent.nextErrCall e2 ∈ validatedHandlerEvents chunkName endpointName2 chunkValid) :
    (e.code = "ERR_SERVICE_INVALID" ∨ e.code = "ERR_RENDERER_INVALID") ∧
    (serviceIsValid = some false → e.code = "ERR_SERVICE_INVALID") ∧
    e2.code = "ERR_SERVER_APP_CHUNK_INVALID" ∧
    e.code ∈ ["ERR_SERVICE_INVALID", "ERR_RENDERER_INVALID", "ERR_SERVER_APP_CHUNK_INVALID"] ∧
    e2.code ∈ ["ERR_SERVICE_INVALID", "ERR_RENDERER_INVALID", "ERR_SERVER_APP_CHUNK_INVALID"] := by
  have hch : e2.code = "ERR_SERVER_APP_CHUNK_INVALID" := by
    unfold validatedHandlerEvents at h2
    cases chunkValid
    · simp at h2
      rw [h2]
    · simp at h2
  have hcomp : (e.code = "ERR_SERVICE_INVALID" ∧ serviceIsValid = some false) ∨
      (e.code = "ERR_RENDERER_INVALID" ∧ serviceIsValid ≠ some false) := by
    unfold compositeHandler at h1
    dsimp only at h1
    split at h1
    · left
      rename_i hb
      simp at h1
      constructor
      · rw [h1]
      · rcases serviceIsValid with _ | b
        · simp [Option.getD] at hb
        · cases b
          · rfl
          · simp [Option.getD] at hb
    · right
      rename_i hb
      have hsv : serviceIsValid ≠ some false := by
        intro hc
        rw [hc] at hb
        simp [Option.getD] at hb
      rcases processOutcome with _ | ⟨d, er⟩
      · simp at h1
      · dsimp only at h1
        split at h1
        · simp at h1
          exact ⟨by rw [h1], hsv⟩
        · simp at h1
  refine ⟨?_, ?_, hch, ?_, ?_⟩
  · rcases hcomp with ⟨hc, _⟩ | ⟨hc, _⟩
    · exact Or.inl hc
    · exact Or.inr hc
  · intro hs
    rcases hcomp with ⟨hc, _⟩ | ⟨_, hne⟩
    · exact hc
    · exact absurd hs hne
  · rcases hcomp with ⟨hc, _⟩ | ⟨hc, _⟩ <;> simp [hc]
  · simp [hch]

/-- Counterexample for claim C3 as stated: the composite handler passes an
error object to the next-handler whose code field is the string
ERR_SERVICE_INVALID, which is none of SERVICE_INVALID, RENDERER_INVALID,
SERVER_APP_CHUNK_INVALID. -/
theorem nextError_code_literal_counterexample :
    HEvent.nextErrCall
      { message := fmt2 ("Service {0} invalid, unable to handle request to endpoint {1}") ("svc") ("ep")
        code := "ERR_SERVICE_INVALID" } ∈
      compositeHandler ("svc") ("rnd") ("ep") (some false) none none ∧
    ("ERR_SERVICE_INVALID" ≠ "SERVICE_INVALID" ∧
     "ERR_SERVICE_INVALID" ≠ "RENDERER_INVALID" ∧
     "ERR_SERVICE_INVALID" ≠ "SERVER_APP_CHUNK_INVALID") := by
  constructor
  · simp [compositeHandler, Option.getD]
  · refine ⟨?_, ?_, ?_⟩ <;> decide

/-- Witness for the amended claim C3 at concrete invalid states. -/
theorem nextError_codes_witness :
    (("ERR_SERVICE_INVALID" = "ERR_SERVICE_INVALID" ∨ ("ERR_SERVICE_INVALID" : String) = "ERR_RENDERER_INVALID") ∧
     (some false = some false → ("ERR_SERVICE_INVALID" : String) = "ERR_SERVICE_INVALID") ∧
     ("ERR_SERVER_APP_CHUNK_INVALID" : String) = "ERR_SERVER_APP_CHUNK_INVALID" ∧
     ("ERR_SERVICE_INVALID" : String) ∈ ["ERR_SERVICE_INVALID", "ERR_RENDERER_INVALID", "ERR_SERVER_APP_CHUNK_INVALID"] ∧
     ("ERR_SERVER_APP_CHUNK_INVALID" : String) ∈ ["ERR_SERVICE_INVALID", "ERR_RENDERER_INVALID", "ERR_SERVER_APP_CHUNK_INVALID"]) :=
  nextError_codes ("svc") ("rnd") ("ep") ("chunk") ("ep2") (some false) none none false
    { message := fmt2 ("Service {0} invalid, unable to handle request to endpoint {1}") ("svc") ("ep")
      code := "ERR_SERVICE_INVALID" }
    { message := fmt2 ("Endpoint {0} : Server app chunk {0} is not valid, unable to handle request") ("ep2") ("chunk")
      code := "ERR_SERVER_APP_CHUNK_INVALID" }
    (by simp [compositeHandler, Option.getD])
    (by simp [validatedHandlerEvents])

/-- Claim C8: a service argument that does not expose all three required
methods makes renderResponsesFor return false immediately with no handler
registered on the server. -/
theorem renderResponsesFor_capability_check (self : RRSelf) (service : RRService)
    (servicePathRoot : JSVal) (endpoints : Option (List String))
    (h : interfaceAdheres service = false) :
    renderResponsesFor self service servicePathRoot endpoints = (false, []) := by
  unfold renderResponsesFor
  simp [h]

/-- Witness for claim C8 at a service missing getIName. -/
theorem renderResponsesFor_capability_check_witness :
    renderResponsesFor exampleRRSelf exampleBadService (JSVal.strV "/") none = (false, []) :=
  renderResponsesFor_capability_check exampleRRSelf exampleBadService (JSVal.strV "/") none rfl

/-- Claim C5: on a service passing the capability check, an empty resolved
selection yields true with zero registrations; on a non-empty selection the
result is true exactly when at least one endpoint registered, and every
per-endpoint success is registered regardless of failures of the other
endpoints (no abort, no rollback). -/
theorem renderResponsesFor_result_semantics (self : RRSelf) (service : RRService)
    (servicePathRoot : JSVal) (endpoints : Option (List String)) (names : List String) :
    (interfaceAdheres service = true → resolvedEndpointNames service endpoints = some [] →
      renderResponsesFor self service servicePathRoot endpoints = (true, [])) ∧
    (interfaceAdheres service = true → resolvedEndpointNames service endpoints = some names →
      names ≠ [] →
      ((renderResponsesFor self service servicePathRoot endpoints).1 = true ↔
        (renderResponsesFor self service servicePathRoot endpoints).2 ≠ []) ∧
      ∀ name r, name ∈ names →
        llSetupRenderingFor self service name
          (if truthy servicePathRoot = true then servicePathRoot else JSVal.strV "/") = some r →
        r ∈ (renderResponsesFor self service servicePathRoot endpoints).2) := by
  constructor
  · intro hi hr
    unfold renderResponsesFor
    simp [hi, hr]
  · intro hi hr hne
    have hie : names.isEmpty = false := by
      cases names
      · exact absurd rfl hne
      · rfl
    unfold renderResponsesFor
    simp only [hi, hr, hie, Bool.not_true, Bool.not_false, if_false, Bool.false_eq_true]
    constructor
    · simp [List.isEmpty_iff]
    · intro name r hmem hsome
      simp only [List.mem_filterMap]
      exact ⟨name, hmem, hsome⟩

/-- Witness for claim C5 at the mixed-outcome setting of the spec: three
endpoints of which one lacks a processing method give overall success with
exactly two registered routes. -/
theorem renderResponsesFor_result_semantics_witness :
    (renderResponsesFor exampleRRSelf exampleRRService (JSVal.strV "/") none).1 = true ∧
    (renderResponsesFor exampleRRSelf exampleRRService (JSVal.strV "/") none).2.length = 2 :=
  ⟨((renderResponsesFor_result_semantics exampleRRSelf exampleRRService (JSVal.strV "/") none
      ["a", "b", "c"]).2 rfl rfl (by decide)).1.mpr (by decide), by decide⟩

/-- Claim C9, amended: the verb is the HTTPMethod field lowercased when that
field is a truthy (non-empty) string and falls back to get when the field is
absent or otherwise falsy; when the server does not expose a method named
after the resolved verb the endpoint registration fails with nothing
registered, and otherwise the handler is registered by calling that server
method with the joined URL path and the handler. -/
theorem registerEndpointHandler_verb_and_registration {H : Type}
    (server endpointDef servicePathRoot : JSVal) (endpointHandlerFunc : H) (s : String) :
    (jget endpointDef ("HTTPMethod") = JSVal.strV s → s ≠ "" →
      resolvedHTTPMethod endpointDef = JSVal.strV (lowerStr s)) ∧
    (truthy (jget endpointDef ("HTTPMethod")) = false →
      resolvedHTTPMethod endpointDef = JSVal.strV "get") ∧
    (hasMethod server (jsStr (resolvedHTTPMethod endpointDef)) = false →
      llRegisterEndpointHandler server endpointDef servicePathRoot endpointHandlerFunc = none) ∧
    (hasMethod server (jsStr (resolvedHTTPMethod endpointDef)) = true →
      llRegisterEndpointHandler server endpointDef servicePathRoot endpointHandlerFunc =
        some { verb := jsStr (resolvedHTTPMethod endpointDef)
               path := joinPaths (jsStr servicePathRoot) (jsStr (jget endpointDef ("URLSubpath")))
               handler := endpointHandlerFunc }) := by
  refine ⟨?_, ?_, ?_, ?_⟩
  · intro h hne
    unfold resolvedHTTPMethod
    rw [h]
    simp [truthy, hne]
  · intro h
    unfold resolvedHTTPMethod
    dsimp only
    rw [h]
    simp only [Bool.false_eq_true, if_false]
    rw [show lowerStr ("get") = "get" from by decide]
  · intro h
    unfold llRegisterEndpointHandler
    simp [h]
  · intro h
    unfold llRegisterEndpointHandler
    simp [h]

/-- Counterexample for claim C9 as stated: an endpoint definition whose
HTTPMethod field is the empty string (a string value) registers with verb
get, not with the lowercased field value; registration succeeds on a server
that has no method named after the empty string. -/
theorem registerEndpointHandler_empty_string_counterexample :
    jget exampleEmptyVerbDef ("HTTPMethod") = JSVal.strV "" ∧
    hasMethod exampleGetOnlyServer ("") = false ∧
    llRegisterEndpointHandler exampleGetOnlyServer exampleEmptyVerbDef (JSVal.strV "/") (0 : Nat) =
      some { verb := "get", path := "/x", handler := 0 } := by
  refine ⟨rfl, rfl, by decide⟩

/-- Witness for the amended claim C9: the empty-string verb resolves to get
and registration calls the get method of the server with the joined path. -/
theorem registerEndpointHandler_verb_and_registration_witness :
    resolvedHTTPMethod exampleEmptyVerbDef = JSVal.strV "get" ∧
    llRegisterEndpointHandler exampleGetOnlyServer exampleEmptyVerbDef (JSVal.strV "/") (0 : Nat) =
      some { verb := jsStr (resolvedHTTPMethod exampleEmptyVerbDef)
             path := joinPaths (jsStr (JSVal.strV "/")) (jsStr (jget exampleEmptyVerbDef ("URLSubpath")))
             handler := 0 } :=
  ⟨(registerEndpointHandler_verb_and_registration exampleGetOnlyServer exampleEmptyVerbDef
      (JSVal.strV "/") (0 : Nat) "x").2.1 (by decide),
   (registerEndpointHandler_verb_and_registration exampleGetOnlyServer exampleEmptyVerbDef
      (JSVal.strV "/") (0 : Nat) "x").2.2.2 (by decide)⟩

/-- The self-registration result of a chunk whose Service part failed the
method-map check: success exactly when some route registered. -/
theorem ServerAppChunk.registerEndpointHandlers_success_iff (s : ServiceState)
    (server urlPathRoot : JSVal)
    (hInv : Service.endpointMethodMapValid s = false) :
    ((ServerAppChunk.registerEndpointHandlers s server urlPathRoot).1 = true ↔
      (ServerAppChunk.registerEndpointHandlers s server urlPathRoot).2 ≠ []) := by
  unfold ServerAppChunk.registerEndpointHandlers
  cases h : Service.getEndpointNames s with
  | none => simp
  | some names =>
    have hne : names ≠ [] := by
      intro hnil
      subst hnil
      unfold Service.endpointMethodMapValid at hInv
      rw [h] at hInv
      simp at hInv
    have hie : names.isEmpty = false := by
      cases names
      · exact absurd rfl hne
      · rfl
    simp [hie, List.isEmpty_iff]

/-- Counterexample for claim C1 as stated: with an unmapped declared
endpoint (so the Service part is invalid) but a valid server, the chunk
constructor still runs the remaining setup, registers the mapped endpoint,
and ends up valid. -/
theorem serverAppChunk_construct_proceeds_despite_invalid_map :
    (Service.construct ("chunk") exampleChunkConfig exampleChunkMethodMap).valid = false ∧
    (ServerAppChunk.construct ("chunk") exampleChunkConfig exampleChunkMethodMap (JSVal.objV [])).valid = true ∧
    (ServerAppChunk.construct ("chunk") exampleChunkConfig exampleChunkMethodMap (JSVal.objV [])).routes.length = 1 := by
  refine ⟨by decide, by decide, by decide⟩

/-- Claim C1, amended: the chunk constructor overwrites the Service-level
invalid mark with true; with a server that is an object the remaining setup
is not skipped, the render-method map is assigned, and the validity flag
immediately after construction only reflects the self-registration outcome:
it is true exactly when at least one endpoint handler registered. -/
theorem serverAppChunk_construct_validity_after_invalid_map (chunkName : String)
    (config methodMapResult renderMethodMapResult : JSVal)
    (hServer : isObj (jget config ("server")) = true)
    (hInvalid : (Service.construct chunkName config methodMapResult).valid = false) :
    ((ServerAppChunk.construct chunkName config methodMapResult renderMethodMapResult).valid = true ↔
      (ServerAppChunk.construct chunkName config methodMapResult renderMethodMapResult).routes ≠ []) ∧
    (ServerAppChunk.construct chunkName config methodMapResult renderMethodMapResult).endpointRenderMethodMap =
      renderMethodMapResult := by
  have hInv : Service.endpointMethodMapValid (Service.construct chunkName config methodMapResult) = false := by
    rw [← Service.construct_valid]
    exact hInvalid
  unfold ServerAppChunk.construct
  simp only [hServer, Bool.not_true, Bool.false_eq_true, if_false]
  refine ⟨ServerAppChunk.registerEndpointHandlers_success_iff _ _ _ hInv, ?_⟩
  trivial

/-- Witness for the amended claim C1 at the concrete two-endpoint
configuration with one unmapped endpoint. -/
theorem serverAppChunk_construct_validity_after_invalid_map_witness :
    (((ServerAppChunk.construct ("chunk") exampleChunkConfig exampleChunkMethodMap (JSVal.objV [])).valid = true ↔
      (ServerAppChunk.construct ("chunk") exampleChunkConfig exampleChunkMethodMap (JSVal.objV [])).routes ≠ []) ∧
     (ServerAppChunk.construct ("chunk") exampleChunkConfig exampleChunkMethodMap (JSVal.objV [])).endpointRenderMethodMap =
       JSVal.objV []) :=
  serverAppChunk_construct_validity_after_invalid_map ("chunk") exampleChunkConfig
    exampleChunkMethodMap (JSVal.objV []) (by decide) (by decide)
